import Mathlib

/-!
Verification of the be-my-eyes detection pipeline.

This file embeds, as pure Lean functions, the service/controller layer of the
repository: the YOLO wrapper ("src/models/yolo/yolo_model.py"), the VLM caption
wrapper ("src/models/vlm/vlm_model.py"), the TTS cache
("src/services/tts_service.py"), the pipeline orchestrator
("src/services/detection_service.py"), and the controller
("src/controllers/ObjectDetectionController.py").

External effects are passed in as data: the detector run, the remote caption
call, the speech engine and the filesystem are parameters (their outcomes are
values of Except/Option types), while all control flow, caching, filtering and
response assembly is translated statement by statement from the Python source.
Python floats are modelled as rationals, Python dicts as association lists
looked up by first match.
-/

set_option autoImplicit false

/-- Position enum from "src/schemas/detection_schemas.py" (values left / center
/ right), as used by the YOLO wrapper. -/
inductive Position where
  | left
  | center
  | right
deriving DecidableEq, Repr

/-- DetectedObject value: label (field name "object" in the schema), position
and confidence, as constructed in detect_objects_yolo. -/
structure DetectedObject where
  object : String
  position : Position
  confidence : ℚ
deriving DecidableEq, Repr

namespace YOLOModelManager

/-- Embedding of YOLOModelManager._determine_position: strict comparison of the
box center against the image-width tertiles; everything that is neither
strictly left of width/3 nor strictly right of 2*width/3 is center. -/
def determine_position (x_center : ℚ) (img_width : ℚ) : Position :=
  if x_center < img_width / 3 then Position.left
  else if x_center > 2 * img_width / 3 then Position.right
  else Position.center

end YOLOModelManager

/-- Claim C2: position classification is a pure function of the box center x
and the image width W: for W > 0, x < W/3 yields left, x > 2W/3 yields right,
and otherwise (including the boundary values x = W/3 and x = 2W/3) it yields
center. -/
theorem claim_C2 (x w : ℚ) (hw : 0 < w) :
    (x < w / 3 → YOLOModelManager.determine_position x w = Position.left) ∧
    (x > 2 * w / 3 → YOLOModelManager.determine_position x w = Position.right) ∧
    (¬ x < w / 3 → ¬ x > 2 * w / 3 →
      YOLOModelManager.determine_position x w = Position.center) ∧
    YOLOModelManager.determine_position (w / 3) w = Position.center ∧
    YOLOModelManager.determine_position (2 * w / 3) w = Position.center := by
  refine ⟨?_, ?_, ?_, ?_, ?_⟩
  · intro h
    simp [YOLOModelManager.determine_position, h]
  · intro h
    have hnl : ¬ x < w / 3 := by
      push_neg
      nlinarith
    simp [YOLOModelManager.determine_position, hnl, h]
  · intro h1 h2
    simp [YOLOModelManager.determine_position, h1, h2]
  · have h1 : ¬ (w / 3 : ℚ) < w / 3 := lt_irrefl _
    have h2 : ¬ (w / 3 : ℚ) > 2 * w / 3 := by
      push_neg
      nlinarith
    simp [YOLOModelManager.determine_position, h1, h2]
  · have h1 : ¬ (2 * w / 3 : ℚ) < w / 3 := by
      push_neg
      nlinarith
    have h2 : ¬ (2 * w / 3 : ℚ) > 2 * w / 3 := lt_irrefl _
    simp [YOLOModelManager.determine_position, h1, h2]

/-- Witness for claim C2 at x = 1, W = 3. -/
theorem claim_C2_witness :
    0 < (3 : ℚ) ∧
    (((1 : ℚ) < 3 / 3 → YOLOModelManager.determine_position 1 3 = Position.left) ∧
     ((1 : ℚ) > 2 * 3 / 3 → YOLOModelManager.determine_position 1 3 = Position.right) ∧
     (¬ (1 : ℚ) < 3 / 3 → ¬ (1 : ℚ) > 2 * 3 / 3 →
       YOLOModelManager.determine_position 1 3 = Position.center) ∧
     YOLOModelManager.determine_position (3 / 3) 3 = Position.center ∧
     YOLOModelManager.determine_position (2 * 3 / 3) 3 = Position.center) :=
  ⟨by norm_num, claim_C2 1 3 (by norm_num)⟩

/-- Speech file information attached to a successful response by the
controller: file_path plus file_size from the filesystem. -/
structure SpeechInfo where
  file_path : String
  file_size : Nat
deriving DecidableEq, Repr

/-- DetectionResponse, the aggregate built by the controller. The schemas
module itself is not under src/; its field defaults are modelled from the
spec: caption, speech and error are optional fields that are absent when the
constructor call omits them, and original_count defaults to 0 in the error
branch where the controller does not pass it. processing_time (wall-clock) is
not modelled. -/
structure DetectionResponse where
  success : Bool
  caption : Option String
  speech : Option SpeechInfo
  objects : List DetectedObject
  total_objects : Nat
  original_count : Nat
  error : Option String
deriving DecidableEq, Repr

namespace DetectionService

/-- Step 2 of organize_services: caption is produced only when the API key is
configured, and a VLM exception is caught and logged, leaving caption = none.
The vlm parameter is the outcome of the awaited generate_caption call. -/
def captionStep (apiKeyConfigured : Bool) (vlm : Except String (Option String)) :
    Option String :=
  if apiKeyConfigured then
    match vlm with
    | Except.ok c => c
    | Except.error _ => none
  else none

/-- Step 3 of organize_services: speech is attempted only when the caption is
truthy (present and non-empty), and a TTS exception is caught and logged,
leaving speech_file = none. The tts parameter is the outcome of
self.tts.get_speech on a given caption text. -/
def speechStep (tts : String → Except String String) (caption : Option String) :
    Option String :=
  match caption with
  | some c =>
    if c = "" then none
    else
      match tts c with
      | Except.ok path => some path
      | Except.error _ => none
  | none => none

/-- Embedding of DetectionService.organize_services: YOLO errors propagate
(the yolo parameter is the outcome of detect_objects_yolo), then the caption
and speech steps run best-effort, and the triple (objects, caption,
speech_file) is returned. -/
def organize_services (yolo : Except String (List DetectedObject))
    (apiKeyConfigured : Bool) (vlm : Except String (Option String))
    (tts : String → Except String String) :
    Except String (List DetectedObject × Option String × Option String) :=
  match yolo with
  | Except.error e => Except.error e
  | Except.ok objects =>
    let caption := captionStep apiKeyConfigured vlm
    let speech_file := speechStep tts caption
    Except.ok (objects, caption, speech_file)

end DetectionService

namespace ObjectDetectionController

/-- Speech-info assembly in the controller: speech_info is populated only when
a speech file path is present, truthy (non-empty) and exists on disk; getSize
models os.path.exists plus os.path.getsize (some size iff the file exists). -/
def speechInfoOf (getSize : String → Option Nat) :
    Option String → Option SpeechInfo
  | some p =>
    if p = "" then none
    else
      match getSize p with
      | some sz => some ⟨p, sz⟩
      | none => none
  | none => none

/-- Embedding of ObjectDetectionController.detect_objects: on pipeline success
it filters the objects by confidence >= min_confidence, assembles the speech
info, and returns the success response with total_objects = length of the
filtered list and original_count = length of the raw list; on any exception it
returns the standardized error response. -/
def detect_objects
    (pipeline : Except String (List DetectedObject × Option String × Option String))
    (getSize : String → Option Nat) (min_confidence : ℚ) : DetectionResponse :=
  match pipeline with
  | Except.ok (objects, caption, speech_file) =>
    let filtered_objects :=
      objects.filter fun obj => decide (obj.confidence ≥ min_confidence)
    { success := true
      caption := caption
      speech := speechInfoOf getSize speech_file
      objects := filtered_objects
      total_objects := filtered_objects.length
      original_count := objects.length
      error := none }
  | Except.error e =>
    { success := false
      caption := none
      speech := none
      objects := []
      total_objects := 0
      original_count := 0
      error := some e }

end ObjectDetectionController

/-- Full request pipeline as driven by the router ("src/routers/data.py"): the
controller's detect_objects applied to the orchestrated service outcome. -/
def detectPipeline (yolo : Except String (List DetectedObject))
    (apiKeyConfigured : Bool) (vlm : Except String (Option String))
    (tts : String → Except String String) (getSize : String → Option Nat)
    (min_confidence : ℚ) : DetectionResponse :=
  ObjectDetectionController.detect_objects
    (DetectionService.organize_services yolo apiKeyConfigured vlm tts)
    getSize min_confidence

/-- Claim C1: for every threshold t and detector output D, the pipeline
result's objects are exactly the confidence-filtered subsequence of D in
detector order, original_count is the length of D, total_objects is the length
of the filtered list, every returned object has confidence >= t, and
original_count >= total_objects. -/
theorem claim_C1 (t : ℚ) (D : List DetectedObject) (apiKeyConfigured : Bool)
    (vlm : Except String (Option String)) (tts : String → Except String String)
    (getSize : String → Option Nat) :
    (detectPipeline (Except.ok D) apiKeyConfigured vlm tts getSize t).objects =
      D.filter (fun obj => decide (obj.confidence ≥ t)) ∧
    (detectPipeline (Except.ok D) apiKeyConfigured vlm tts getSize t).objects.Sublist D ∧
    (detectPipeline (Except.ok D) apiKeyConfigured vlm tts getSize t).original_count =
      D.length ∧
    (detectPipeline (Except.ok D) apiKeyConfigured vlm tts getSize t).total_objects =
      (detectPipeline (Except.ok D) apiKeyConfigured vlm tts getSize t).objects.length ∧
    (detectPipeline (Except.ok D) apiKeyConfigured vlm tts getSize t).objects.all
      (fun obj => decide (obj.confidence ≥ t)) = true ∧
    (detectPipeline (Except.ok D) apiKeyConfigured vlm tts getSize t).total_objects ≤
      (detectPipeline (Except.ok D) apiKeyConfigured vlm tts getSize t).original_count := by
  refine ⟨rfl, ?_, rfl, rfl, ?_, ?_⟩
  · exact List.filter_sublist D
  · simp only [detectPipeline, DetectionService.organize_services,
      ObjectDetectionController.detect_objects, List.all_eq_true]
    intro obj hobj
    exact (List.mem_filter.mp hobj).2
  · exact List.length_filter_le _ D

/-- Claim C3: if the detector raises with message e, the pipeline result has
success = false, empty objects, total_objects = 0, no caption, no speech, and
the non-empty error message e; moreover the result does not depend on the
caption step, the speech step or the filesystem, so neither step is attempted. -/
theorem claim_C3 (e : String) (apiKeyConfigured apiKeyConfigured' : Bool)
    (vlm vlm' : Except String (Option String))
    (tts tts' : String → Except String String)
    (getSize getSize' : String → Option Nat) (t : ℚ) (h : e ≠ "") :
    (detectPipeline (Except.error e) apiKeyConfigured vlm tts getSize t).success = false ∧
    (detectPipeline (Except.error e) apiKeyConfigured vlm tts getSize t).objects = [] ∧
    (detectPipeline (Except.error e) apiKeyConfigured vlm tts getSize t).total_objects = 0 ∧
    (detectPipeline (Except.error e) apiKeyConfigured vlm tts getSize t).caption = none ∧
    (detectPipeline (Except.error e) apiKeyConfigured vlm tts getSize t).speech = none ∧
    (detectPipeline (Except.error e) apiKeyConfigured vlm tts getSize t).error = some e ∧
    e ≠ "" ∧
    detectPipeline (Except.error e) apiKeyConfigured vlm tts getSize t =
      detectPipeline (Except.error e) apiKeyConfigured' vlm' tts' getSize' t :=
  ⟨rfl, rfl, rfl, rfl, rfl, rfl, h, rfl⟩

/-- Witness for claim C3 with the non-empty detector error message
"Model loading failed: no file". -/
theorem claim_C3_witness :
    ("Model loading failed: no file" : String) ≠ "" ∧
    ((detectPipeline (Except.error "Model loading failed: no file") true
        (Except.ok (some "cap")) (fun _ => Except.ok "a.mp3") (fun _ => some 5)
        (1 / 2)).success = false ∧
     (detectPipeline (Except.error "Model loading failed: no file") true
        (Except.ok (some "cap")) (fun _ => Except.ok "a.mp3") (fun _ => some 5)
        (1 / 2)).objects = [] ∧
     (detectPipeline (Except.error "Model loading failed: no file") true
        (Except.ok (some "cap")) (fun _ => Except.ok "a.mp3") (fun _ => some 5)
        (1 / 2)).total_objects = 0 ∧
     (detectPipeline (Except.error "Model loading failed: no file") true
        (Except.ok (some "cap")) (fun _ => Except.ok "a.mp3") (fun _ => some 5)
        (1 / 2)).caption = none ∧
     (detectPipeline (Except.error "Model loading failed: no file") true
        (Except.ok (some "cap")) (fun _ => Except.ok "a.mp3") (fun _ => some 5)
        (1 / 2)).speech = none ∧
     (detectPipeline (Except.error "Model loading failed: no file") true
        (Except.ok (some "cap")) (fun _ => Except.ok "a.mp3") (fun _ => some 5)
        (1 / 2)).error = some "Model loading failed: no file" ∧
     ("Model loading failed: no file" : String) ≠ "" ∧
     detectPipeline (Except.error "Model loading failed: no file") true
        (Except.ok (some "cap")) (fun _ => Except.ok "a.mp3") (fun _ => some 5)
        (1 / 2) =
       detectPipeline (Except.error "Model loading failed: no file") false
        (Except.error "vlm down") (fun _ => Except.error "tts down") (fun _ => none)
        (1 / 2)) :=
  ⟨by decide, claim_C3 "Model loading failed: no file" true false
    (Except.ok (some "cap")) (Except.error "vlm down")
    (fun _ => Except.ok "a.mp3") (fun _ => Except.error "tts down")
    (fun _ => some 5) (fun _ => none) (1 / 2) (by decide)⟩

/-- Claim C4: if detection succeeds but caption generation fails (the VLM call
raises, or returns an absent caption), the pipeline still returns success =
true with the filtered detections, caption absent and speech absent. -/
theorem claim_C4 (D : List DetectedObject) (apiKeyConfigured : Bool) (e : String)
    (tts : String → Except String String) (getSize : String → Option Nat) (t : ℚ) :
    ((detectPipeline (Except.ok D) apiKeyConfigured (Except.error e) tts getSize t).success
        = true ∧
     (detectPipeline (Except.ok D) apiKeyConfigured (Except.error e) tts getSize t).objects
        = D.filter (fun obj => decide (obj.confidence ≥ t)) ∧
     (detectPipeline (Except.ok D) apiKeyConfigured (Except.error e) tts getSize t).caption
        = none ∧
     (detectPipeline (Except.ok D) apiKeyConfigured (Except.error e) tts getSize t).speech
        = none) ∧
    ((detectPipeline (Except.ok D) apiKeyConfigured (Except.ok none) tts getSize t).success
        = true ∧
     (detectPipeline (Except.ok D) apiKeyConfigured (Except.ok none) tts getSize t).objects
        = D.filter (fun obj => decide (obj.confidence ≥ t)) ∧
     (detectPipeline (Except.ok D) apiKeyConfigured (Except.ok none) tts getSize t).caption
        = none ∧
     (detectPipeline (Except.ok D) apiKeyConfigured (Except.ok none) tts getSize t).speech
        = none) := by
  cases apiKeyConfigured <;>
    exact ⟨⟨rfl, rfl, rfl, rfl⟩, ⟨rfl, rfl, rfl, rfl⟩⟩

/-- Lookup in a Python-dict model: association list searched by first matching
key. -/
def lookupCache {α : Type} (cache : List (String × α)) (key : String) : Option α :=
  (cache.find? fun kv => kv.1 == key).map Prod.snd

/-- Store in a Python-dict model: the new binding shadows any previous binding
for the same key. -/
def cacheInsert {α : Type} (cache : List (String × α)) (key : String) (val : α) :
    List (String × α) :=
  (key, val) :: cache

theorem lookupCache_cacheInsert {α : Type} (cache : List (String × α))
    (key : String) (val : α) : lookupCache (cacheInsert cache key val) key = some val := by
  simp [lookupCache, cacheInsert, List.find?]

/-- Outcome of one TTSService.get_speech call: the returned path or raised
error, the cache contents after the call, and how many times the underlying
synthesizer was invoked during the call. -/
structure SpeechCallResult where
  result : Except String String
  cache : List (String × String)
  synthCalls : Nat
deriving Repr

namespace TTSService

/-- Body of the try block of get_speech: invoke the synthesizer (gen is the
outcome of self.tts.generate_speech text); on success store in the cache when
use_cache is set and return the path; on exception re-raise as a RuntimeError
with the "TTS Service Error: " message, leaving the cache untouched. -/
def synthesizeStep (gen : Except String String) (cache : List (String × String))
    (text : String) (use_cache : Bool) : SpeechCallResult :=
  match gen with
  | Except.ok file_path =>
    ⟨Except.ok file_path,
     if use_cache then cacheInsert cache text file_path else cache, 1⟩
  | Except.error e =>
    ⟨Except.error ("TTS Service Error: " ++ e), cache, 1⟩

/-- Embedding of TTSService.get_speech: if use_cache is set and the exact text
has an entry, return the cached path without invoking the synthesizer;
otherwise run the synthesize step. -/
def get_speech (gen : Except String String) (cache : List (String × String))
    (text : String) : Bool → SpeechCallResult
  | true =>
    match lookupCache cache text with
    | some file_path => ⟨Except.ok file_path, cache, 0⟩
    | none => synthesizeStep gen cache text true
  | false => synthesizeStep gen cache text false

end TTSService

/-- Claim C5: two consecutive get_speech calls for the same text with
use_cache = true invoke the synthesizer at most once in total and return the
identical path, the second call answering from the cache with zero synthesizer
invocations (given that the first call returned a path rather than raising). -/
theorem claim_C5 (g1 g2 : Except String String) (cache : List (String × String))
    (text p : String)
    (h : (TTSService.get_speech g1 cache text true).result = Except.ok p) :
    (TTSService.get_speech g2 (TTSService.get_speech g1 cache text true).cache
        text true).result = Except.ok p ∧
    (TTSService.get_speech g2 (TTSService.get_speech g1 cache text true).cache
        text true).synthCalls = 0 ∧
    (TTSService.get_speech g1 cache text true).synthCalls +
      (TTSService.get_speech g2 (TTSService.get_speech g1 cache text true).cache
        text true).synthCalls ≤ 1 := by
  cases hl : lookupCache cache text with
  | some q =>
    have e1 : TTSService.get_speech g1 cache text true =
        ⟨Except.ok q, cache, 0⟩ := by
      simp [TTSService.get_speech, hl]
    have e2 : TTSService.get_speech g2 cache text true =
        ⟨Except.ok q, cache, 0⟩ := by
      simp [TTSService.get_speech, hl]
    rw [e1] at h
    rw [e1, e2]
    exact ⟨h, rfl, by norm_num⟩
  | none =>
    cases g1 with
    | error e =>
      have e1 : TTSService.get_speech (Except.error e) cache text true =
          ⟨Except.error ("TTS Service Error: " ++ e), cache, 1⟩ := by
        simp [TTSService.get_speech, hl, TTSService.synthesizeStep]
      rw [e1] at h
      exact absurd h (by simp)
    | ok fp =>
      have e1 : TTSService.get_speech (Except.ok fp) cache text true =
          ⟨Except.ok fp, cacheInsert cache text fp, 1⟩ := by
        simp [TTSService.get_speech, hl, TTSService.synthesizeStep]
      rw [e1] at h
      have hfp : fp = p := by
        simpa using h
      subst hfp
      have e2 : TTSService.get_speech g2 (cacheInsert cache text fp) text true =
          ⟨Except.ok fp, cacheInsert cache text fp, 0⟩ := by
        simp [TTSService.get_speech, lookupCache_cacheInsert]
      rw [e1, e2]
      exact ⟨rfl, rfl, by norm_num⟩

/-- Witness for claim C5: empty cache, first synthesis succeeds with
"f.mp3", second call answers from the cache. -/
theorem claim_C5_witness :
    (TTSService.get_speech (Except.ok "f.mp3") [] "hello" true).result =
      Except.ok "f.mp3" ∧
    ((TTSService.get_speech (Except.error "x")
        (TTSService.get_speech (Except.ok "f.mp3") [] "hello" true).cache
        "hello" true).result = Except.ok "f.mp3" ∧
     (TTSService.get_speech (Except.error "x")
        (TTSService.get_speech (Except.ok "f.mp3") [] "hello" true).cache
        "hello" true).synthCalls = 0 ∧
     (TTSService.get_speech (Except.ok "f.mp3") [] "hello" true).synthCalls +
       (TTSService.get_speech (Except.error "x")
         (TTSService.get_speech (Except.ok "f.mp3") [] "hello" true).cache
         "hello" true).synthCalls ≤ 1) :=
  ⟨rfl, claim_C5 (Except.ok "f.mp3") (Except.error "x") [] "hello" "f.mp3" rfl⟩

/-- Claim C6: a get_speech call with use_cache = false always invokes the
synthesizer exactly once, whatever the prior cache contents (in particular
even when an entry for the text exists), and returns the cache exactly as it
was: no entry added, removed or changed. -/
theorem claim_C6 (gen : Except String String) (cache : List (String × String))
    (text : String) :
    (TTSService.get_speech gen cache text false).synthCalls = 1 ∧
    (TTSService.get_speech gen cache text false).cache = cache := by
  cases gen <;> exact ⟨rfl, rfl⟩

/-- Claim C10: when the synthesizer is actually invoked and fails during
get_speech, the operation is atomic with respect to the cache (the cache
mapping is exactly as before the call, no entry stored for the text) and the
failure is re-raised as a runtime error whose message begins with
"TTS Service Error:". -/
theorem claim_C10 (e : String) (cache : List (String × String)) (text : String)
    (use_cache : Bool)
    (h : (TTSService.get_speech (Except.error e) cache text use_cache).synthCalls = 1) :
    (TTSService.get_speech (Except.error e) cache text use_cache).result =
      Except.error ("TTS Service Error: " ++ e) ∧
    (TTSService.get_speech (Except.error e) cache text use_cache).cache = cache ∧
    ∃ rest, "TTS Service Error: " ++ e = "TTS Service Error:" ++ rest := by
  refine ⟨?_, ?_, " " ++ e, ?_⟩
  · cases use_cache with
    | false => rfl
    | true =>
      cases hl : lookupCache cache text with
      | some q =>
        exfalso
        have : (TTSService.get_speech (Except.error e) cache text true).synthCalls = 0 := by
          simp [TTSService.get_speech, hl]
        omega
      | none => simp [TTSService.get_speech, hl, TTSService.synthesizeStep]
  · cases use_cache with
    | false => rfl
    | true =>
      cases hl : lookupCache cache text with
      | some q => simp [TTSService.get_speech, hl]
      | none => simp [TTSService.get_speech, hl, TTSService.synthesizeStep]
  · rw [← String.append_assoc]
    congr 1

/-- Witness for claim C10: empty cache, synthesizer fails with "engine down". -/
theorem claim_C10_witness :
    (TTSService.get_speech (Except.error "engine down") [] "hi" true).synthCalls = 1 ∧
    ((TTSService.get_speech (Except.error "engine down") [] "hi" true).result =
       Except.error ("TTS Service Error: " ++ "engine down") ∧
     (TTSService.get_speech (Except.error "engine down") [] "hi" true).cache = [] ∧
     ∃ rest, "TTS Service Error: " ++ "engine down" = "TTS Service Error:" ++ rest) :=
  ⟨rfl, claim_C10 "engine down" [] "hi" true rfl⟩

namespace YOLOModelManager

/-- Resolution of the optional model_name argument of load_model: the Python
"model_name or settings.YOLO_MODEL_NAME" falls back to the configured default
when the argument is absent or falsy (empty). -/
def resolve_model_name (model_name : Option String) (default_name : String) : String :=
  match model_name with
  | some n => if n = "" then default_name else n
  | none => default_name

/-- Embedding of YOLOModelManager._get_model_path: probe a fixed ordered list
of candidate locations and return the first existing one, else fall back to
the bare model name (which triggers a remote download). pathExists models
os.path.exists and parent_dir the directory three levels above the module. -/
def get_model_path (pathExists : String → Bool) (parent_dir : String)
    (model_name : String) : String :=
  let possible_paths := [model_name,
    "models/yolo/" ++ model_name,
    "src/models/yolo/" ++ model_name,
    parent_dir ++ "/models/yolo/" ++ model_name]
  match possible_paths.find? pathExists with
  | some path => some path |>.getD model_name
  | none => model_name

/-- Embedding of YOLOModelManager.load_model over an explicit _models_cache
state: on a cache miss, resolve the path, construct the model (loader models a
successful YOLO(model_path) construction, handles abstracted as naturals) and
store it; on a hit, return the cached handle. The last component counts how
many model loads the call performed. -/
def load_model (loader : String → Nat) (pathExists : String → Bool)
    (parent_dir : String) (default_name : String) (cache : List (String × Nat))
    (model_name : Option String) : Nat × List (String × Nat) × Nat :=
  let name := resolve_model_name model_name default_name
  match lookupCache cache name with
  | some handle => (handle, cache, 0)
  | none =>
    let handle := loader (get_model_path pathExists parent_dir name)
    (handle, cacheInsert cache name handle, 1)

end YOLOModelManager

/-- Per-request model loads as driven by the router: the endpoint in
"src/routers/data.py" constructs a fresh ObjectDetectionController per
request, whose DetectionService constructs a fresh YOLOModelManager whose
__init__ sets _models_cache = empty dict; detect_objects_yolo then calls
load_model() with no explicit name on that empty cache. -/
def routerRequestModelLoads (loader : String → Nat) (pathExists : String → Bool)
    (parent_dir : String) (default_name : String) : Nat :=
  (YOLOModelManager.load_model loader pathExists parent_dir default_name [] none).2.2

/-- Counterexample to claim C7: two consecutive requests through the router
each construct a fresh controller with an empty model cache, so each performs
its own model load; the same model name is loaded twice in the process, not at
most once. -/
theorem claim_C7_counterexample :
    routerRequestModelLoads (fun _ => 7) (fun _ => false) "/app/src" "yolo11n.pt" +
      routerRequestModelLoads (fun _ => 7) (fun _ => false) "/app/src" "yolo11n.pt" = 2 ∧
    ¬ (routerRequestModelLoads (fun _ => 7) (fun _ => false) "/app/src" "yolo11n.pt" +
        routerRequestModelLoads (fun _ => 7) (fun _ => false) "/app/src" "yolo11n.pt" ≤ 1) := by
  refine ⟨rfl, ?_⟩
  intro h
  have : (2 : Nat) ≤ 1 := h
  omega

/-- Amended claim C7: within a single YOLOModelManager instance the handle is
cached by model name and loaded at most once: any load_model call performs at
most one load, and a second call with the same name on the resulting cache
performs zero loads, returns the identical handle and leaves the cache
unchanged. The cache is per manager instance, hence per request, not
process-wide. -/
theorem claim_C7_amended (loader : String → Nat) (pathExists : String → Bool)
    (parent_dir : String) (default_name : String) (cache : List (String × Nat))
    (model_name : Option String) :
    (YOLOModelManager.load_model loader pathExists parent_dir default_name
      cache model_name).2.2 ≤ 1 ∧
    (YOLOModelManager.load_model loader pathExists parent_dir default_name
      (YOLOModelManager.load_model loader pathExists parent_dir default_name
        cache model_name).2.1 model_name).1 =
      (YOLOModelManager.load_model loader pathExists parent_dir default_name
        cache model_name).1 ∧
    (YOLOModelManager.load_model loader pathExists parent_dir default_name
      (YOLOModelManager.load_model loader pathExists parent_dir default_name
        cache model_name).2.1 model_name).2.1 =
      (YOLOModelManager.load_model loader pathExists parent_dir default_name
        cache model_name).2.1 ∧
    (YOLOModelManager.load_model loader pathExists parent_dir default_name
      (YOLOModelManager.load_model loader pathExists parent_dir default_name
        cache model_name).2.1 model_name).2.2 = 0 := by
  cases hl : lookupCache cache (YOLOModelManager.resolve_model_name model_name default_name) with
  | some handle =>
    have e1 : YOLOModelManager.load_model loader pathExists parent_dir default_name
        cache model_name = (handle, cache, 0) := by
      simp [YOLOModelManager.load_model, hl]
    refine ⟨?_, ?_, ?_, ?_⟩ <;> simp [e1]
  | none =>
    have e1 : YOLOModelManager.load_model loader pathExists parent_dir default_name
        cache model_name =
        (loader (YOLOModelManager.get_model_path pathExists parent_dir
          (YOLOModelManager.resolve_model_name model_name default_name)),
         cacheInsert cache (YOLOModelManager.resolve_model_name model_name default_name)
           (loader (YOLOModelManager.get_model_path pathExists parent_dir
             (YOLOModelManager.resolve_model_name model_name default_name))), 1) := by
      simp [YOLOModelManager.load_model, hl]
    have e2 : YOLOModelManager.load_model loader pathExists parent_dir default_name
        (cacheInsert cache (YOLOModelManager.resolve_model_name model_name default_name)
          (loader (YOLOModelManager.get_model_path pathExists parent_dir
            (YOLOModelManager.resolve_model_name model_name default_name))))
        model_name =
        (loader (YOLOModelManager.get_model_path pathExists parent_dir
          (YOLOModelManager.resolve_model_name model_name default_name)),
         cacheInsert cache (YOLOModelManager.resolve_model_name model_name default_name)
           (loader (YOLOModelManager.get_model_path pathExists parent_dir
             (YOLOModelManager.resolve_model_name model_name default_name))), 0) := by
      simp [YOLOModelManager.load_model, lookupCache_cacheInsert]
    rw [e1, e2]
    exact ⟨by norm_num, rfl, rfl, rfl⟩

/-- Raw candidate box from the underlying model run: bounding-box coordinates,
class index and confidence score, as read off results[0].boxes in
detect_objects_yolo. -/
structure RawBox where
  x_min : ℚ
  y_min : ℚ
  x_max : ℚ
  y_max : ℚ
  cls : Nat
  conf : ℚ
deriving DecidableEq, Repr

namespace YOLOModelManager

/-- Embedding of YOLOModelManager.detect_objects_yolo: every raw candidate box
is turned into a DetectedObject with its label (names models model.names), its
position derived from the bounding-box horizontal center, and its raw
confidence. The confidence parameter of the method is accepted but never
read. -/
def detect_objects_yolo (names : Nat → String) (img_width : ℚ)
    (boxes : List RawBox) (confidence : ℚ) : List DetectedObject :=
  boxes.map fun box =>
    { object := names box.cls
      position := determine_position ((box.x_min + box.x_max) / 2) img_width
      confidence := box.conf }

end YOLOModelManager

/-- Claim C8: the detector accepts a confidence-threshold parameter but
returns the model's raw candidate set unchanged: any two thresholds yield the
identical object list, one object per raw box, with the raw confidences passed
through unfiltered. -/
theorem claim_C8 (names : Nat → String) (img_width : ℚ) (boxes : List RawBox)
    (t1 t2 : ℚ) :
    YOLOModelManager.detect_objects_yolo names img_width boxes t1 =
      YOLOModelManager.detect_objects_yolo names img_width boxes t2 ∧
    (YOLOModelManager.detect_objects_yolo names img_width boxes t1).length =
      boxes.length ∧
    (YOLOModelManager.detect_objects_yolo names img_width boxes t1).map
      DetectedObject.confidence = boxes.map RawBox.conf := by
  refine ⟨rfl, ?_, ?_⟩ <;> simp [YOLOModelManager.detect_objects_yolo]

/-- Parsed body of a successful captioning response: the message contents of
the "choices" array (absent key modelled as the empty list). A non-2xx status,
a network exception or an unparsable body are all a failed remote outcome. -/
structure VLMApiResult where
  choices : List String
deriving DecidableEq, Repr

namespace VLMModelManager

/-- Embedding of VLMModelManager.generate_caption: with no credential (falsy
api_key) it returns none without attempting the remote call; otherwise the
image read, the remote call and the body extraction run inside a try block
whose except clause returns none. image_read is the outcome of reading the
image file and remote the outcome of the authenticated post (raise_for_status
plus json decoding included); the Bool records whether the remote call was
attempted. -/
def generate_caption (api_key : String) (image_read : Except String String)
    (remote : Except String VLMApiResult) : Option String × Bool :=
  if api_key = "" then (none, false)
  else
    match image_read with
    | Except.error _ => (none, false)
    | Except.ok _ =>
      match remote with
      | Except.error _ => (none, true)
      | Except.ok result => (result.choices.head?, true)

end VLMModelManager

/-- Claim C9: the captioner never raises to its caller: with no credential it
returns the absent caption without attempting the remote call, and for every
remote-call failure (non-2xx, exception, malformed body) as well as for every
image-read failure it returns the absent caption rather than an error. -/
theorem claim_C9 (k : String) (img : Except String String)
    (remote : Except String VLMApiResult) (e : String) :
    VLMModelManager.generate_caption "" img remote = (none, false) ∧
    (VLMModelManager.generate_caption k img (Except.error e)).1 = none ∧
    (VLMModelManager.generate_caption k (Except.error e) remote).1 = none := by
  refine ⟨by simp [VLMModelManager.generate_caption], ?_, ?_⟩
  · by_cases hk : k = ""
    · simp [VLMModelManager.generate_caption, hk]
    · cases img <;> simp [VLMModelManager.generate_caption, hk]
  · by_cases hk : k = ""
    · simp [VLMModelManager.generate_caption, hk]
    · simp [VLMModelManager.generate_caption, hk]
